import Mathlib

/-!
# awsauthorize: a verification development of `cmd/awsauthorize/main.go`

The program fetches the caller's public IP, checks the region, resolves a
security group by name and asks the provider to authorize ingress for the
address.  Go strings are embedded as `String`; a Go result pair
`(*string, error)` is embedded as `Option String × Option GoError`, so that
the pair `(nil, nil)` stays expressible.  Calls that leave the process
(HTTP, DNS, AWS SDK) are answered by an `Env` and recorded in a trace.
-/

namespace AwsAuthorize

/-! ## The fragment of `regexp` used by `ToCidr` -/

/-- One element of a regular expression built from anchors, a character
class, and a character class repeated one or more times. -/
inductive Tok where
  | beginText : Tok
  | endText : Tok
  | one (cls : Char → Bool) : Tok
  | plus (cls : Char → Bool) : Tok

/-- Matching of `cls+` followed by the continuation `k`: at least one
character of the class is consumed, then either the rest matches or the
repetition goes on. -/
def plusLoop (cls : Char → Bool) (k : List Char → Bool) : List Char → Bool
  | [] => false
  | x :: xs => cls x && (k xs || plusLoop cls k xs)

/-- Does the token sequence match at the current position?  `atStart` tells
whether the current position is the beginning of the text. -/
def matchHere : List Tok → Bool → List Char → Bool
  | [], _, _ => true
  | Tok.beginText :: ts, atStart, s => atStart && matchHere ts atStart s
  | Tok.endText :: ts, atStart, s => s.isEmpty && matchHere ts atStart s
  | Tok.one cls :: ts, _, s =>
    match s with
    | [] => false
    | x :: xs => cls x && matchHere ts false xs
  | Tok.plus cls :: ts, _, s => plusLoop cls (matchHere ts false) s

/-- Unanchored search, as `regexp.Match` does it: the expression may match
at any position of the text. -/
def matchFrom (ts : List Tok) : Bool → List Char → Bool
  | atStart, [] => matchHere ts atStart []
  | atStart, x :: xs => matchHere ts atStart (x :: xs) || matchFrom ts false xs

/-- The class `\d`: ASCII decimal digits. -/
def digit (c : Char) : Bool := decide (48 ≤ c.toNat) && decide (c.toNat ≤ 57)

/-- The class `\.`: the literal dot. -/
def dot (c : Char) : Bool := c == '.'

/-- The expression `^\d+\.\d+\.\d+\.\d+$` of `ToCidr`. -/
def ipPattern : List Tok :=
  [Tok.beginText, Tok.plus digit, Tok.one dot, Tok.plus digit, Tok.one dot,
   Tok.plus digit, Tok.one dot, Tok.plus digit, Tok.endText]

/-- Model of `regexp.Match(pattern, []byte(s))` for the pattern above. -/
def regexpMatch (ts : List Tok) (s : String) : Bool := matchFrom ts true s.data

/-! ## Errors -/

/-- A Go `error` value: the program's own `errorCustom`, or an error handed
back by a library, each with the text of its `Error()` method. -/
inductive GoError where
  | errorCustom (msg : String) : GoError
  | external (msg : String) : GoError
  deriving DecidableEq, Repr

/-- The method `Error()`. -/
def GoError.Error : GoError → String
  | GoError.errorCustom msg => msg
  | GoError.external msg => msg

/-! ## `ToCidr` -/

/-- Embedding of `ToCidr`: a matching address is returned with `/32`
appended, any other one gives `nil` and an `errorCustom`.  The pattern is a
constant that compiles, so the `err != nil` branch of `regexp.Match` is not
reachable. -/
def ToCidr (ip : String) : Option String × Option GoError :=
  if regexpMatch ipPattern ip then
    (some (ip ++ "/32"), none)
  else
    (none, some (GoError.errorCustom ("Not a recognized IPv4 address \"" ++ ip ++ "\"")))

/-- Four non-empty groups of decimal digits separated by single dots, with
nothing before or after: the wording of the specification. -/
def DottedQuad (s : List Char) : Prop :=
  ∃ a b c d : List Char,
    (a ≠ [] ∧ ∀ x ∈ a, digit x = true) ∧ (b ≠ [] ∧ ∀ x ∈ b, digit x = true) ∧
    (c ≠ [] ∧ ∀ x ∈ c, digit x = true) ∧ (d ≠ [] ∧ ∀ x ∈ d, digit x = true) ∧
    s = a ++ '.' :: (b ++ '.' :: (c ++ '.' :: d))

/-! ## String helpers of the Go library -/

/-- Model of `strings.Contains` on character lists. -/
def containsList (substr : List Char) : List Char → Bool
  | [] => substr.isPrefixOf []
  | x :: xs => substr.isPrefixOf (x :: xs) || containsList substr xs

/-- Model of `strings.Contains(s, substr)`. -/
def Contains (s substr : String) : Bool := containsList substr.data s.data

/-- Model of `strings.TrimSuffix(s, suffix)`: one occurrence of the suffix
is cut off when `s` ends with it, otherwise `s` is returned as it is. -/
def TrimSuffix (s suffix : String) : String :=
  if suffix.data.isSuffixOf s.data then
    String.mk (s.data.take (s.data.length - suffix.data.length))
  else s

/-! ## The outside world -/

/-- A value of `*session.Session` as handed out by the SDK. -/
structure SdkSession where
  id : Nat
  deriving DecidableEq, Repr

/-- A value of `*ec2.EC2`: `ec2.New(sess)` keeps the session it was given. -/
structure Ec2Client where
  sess : Option SdkSession
  deriving DecidableEq, Repr

/-- A value of `*sts.STS`: `sts.New(sess)` keeps the session it was given. -/
structure StsClient where
  sess : Option SdkSession
  deriving DecidableEq, Repr

/-- The type `ec2.Filter`. -/
structure Filter where
  Name : Option String
  Values : List (Option String)
  deriving DecidableEq, Repr

/-- The type `ec2.DescribeSecurityGroupsInput`, with the field the program sets. -/
structure DescribeSecurityGroupsInput where
  Filters : List Filter
  deriving DecidableEq, Repr

/-- The type `ec2.SecurityGroup`, with the field the program reads. -/
structure SecurityGroup where
  GroupId : Option String
  deriving DecidableEq, Repr

/-- The type `ec2.DescribeSecurityGroupsOutput`. -/
structure DescribeSecurityGroupsOutput where
  SecurityGroups : List SecurityGroup
  deriving DecidableEq, Repr

/-- The type `ec2.AuthorizeSecurityGroupIngressInput`, with the fields the
program sets. -/
structure AuthorizeSecurityGroupIngressInput where
  CidrIp : Option String
  FromPort : Option Int
  ToPort : Option Int
  GroupId : Option String
  IpProtocol : Option String
  deriving DecidableEq, Repr

/-- The type `sts.GetCallerIdentityOutput`, with the field the program reads. -/
structure GetCallerIdentityOutput where
  UserId : Option String
  deriving DecidableEq, Repr

/-- A call that leaves the process, with its arguments. -/
inductive Call where
  | HttpGet (url : String) : Call
  | LookupHost (fqdn : String) : Call
  | NewSession (region : String) : Call
  | DescribeSecurityGroups (svc : Option Ec2Client) (input : DescribeSecurityGroupsInput) : Call
  | GetCallerIdentity (svc : StsClient) : Call
  | AuthorizeSecurityGroupIngress (svc : Option Ec2Client)
      (input : AuthorizeSecurityGroupIngressInput) : Call
  deriving DecidableEq, Repr

/-- The answers of the outside world.  Each answer may depend on the calls
made so far.  A library call that returns `(value, err)` is answered by an
`Except`: the program only looks at the value when `err` is `nil`.
`HttpGet` answers `http.Get` and then `ioutil.ReadAll` of the body. -/
structure Env where
  HttpGet : List Call → String → Except GoError (Except GoError String)
  LookupHost : List Call → String → Option GoError
  NewSession : List Call → String → Except GoError SdkSession
  DescribeSecurityGroups : List Call → Option Ec2Client → DescribeSecurityGroupsInput →
    Except GoError DescribeSecurityGroupsOutput
  GetCallerIdentity : List Call → StsClient → Except GoError GetCallerIdentityOutput
  AuthorizeSecurityGroupIngress : List Call → Option Ec2Client →
    AuthorizeSecurityGroupIngressInput → Option GoError

/-- The ingress authorization requests recorded in a trace, oldest first. -/
def ingressRequests : List Call → List AuthorizeSecurityGroupIngressInput
  | [] => []
  | Call.AuthorizeSecurityGroupIngress _ input :: cs => input :: ingressRequests cs
  | _ :: cs => ingressRequests cs

/-- The calls of a trace that go to the cloud provider (session creation and
the EC2 and STS requests). -/
def cloudCalls : List Call → List Call
  | [] => []
  | Call.HttpGet _ :: cs => cloudCalls cs
  | Call.LookupHost _ :: cs => cloudCalls cs
  | c :: cs => c :: cloudCalls cs

/-! ## `GetPublicIP` and `ValidateRegion` -/

/-- Embedding of `GetPublicIP`. -/
def GetPublicIP (env : Env) (tr : List Call) : (String × Option GoError) × List Call :=
  let url := "http://checkip.amazonaws.com"
  match env.HttpGet tr url with
  | Except.error err => (("", some err), tr ++ [Call.HttpGet url])
  | Except.ok body =>
    match body with
    | Except.error errRead => (("", some errRead), tr ++ [Call.HttpGet url])
    | Except.ok ip => ((TrimSuffix ip "\n", none), tr ++ [Call.HttpGet url])

/-- Embedding of `ValidateRegion`. -/
def ValidateRegion (env : Env) (tr : List Call) (region : String) : Bool × List Call :=
  let fqdn := "ec2." ++ region ++ ".amazonaws.com"
  match env.LookupHost tr fqdn with
  | some _ => (false, tr ++ [Call.LookupHost fqdn])
  | none => (true, tr ++ [Call.LookupHost fqdn])

/-! ## The session object -/

/-- The struct `awsSession`. -/
structure awsSession where
  Session : Option SdkSession
  Ec2 : Option Ec2Client
  Region : String
  IP : Option String
  deriving DecidableEq, Repr

/-- Embedding of `NewAwsSession`. -/
def NewAwsSession (region : String) : awsSession :=
  { Session := none, Ec2 := none, Region := region, IP := none }

/-- Embedding of `awsSession.GetSession`: the result pair, the receiver
after the call, and the trace after the call. -/
def GetSession (env : Env) (self : awsSession) (tr : List Call) :
    (Option SdkSession × Option GoError) × awsSession × List Call :=
  if self.Session ≠ none then
    ((self.Session, none), self, tr)
  else
    match env.NewSession tr self.Region with
    | Except.error err => ((none, some err), self, tr ++ [Call.NewSession self.Region])
    | Except.ok sess =>
      ((some sess, none), { self with Session := some sess },
        tr ++ [Call.NewSession self.Region])

/-- Embedding of `awsSession.GetEC2`. -/
def GetEC2 (env : Env) (self : awsSession) (tr : List Call) :
    (Option Ec2Client × Option GoError) × awsSession × List Call :=
  if self.Ec2 ≠ none then
    ((self.Ec2, none), self, tr)
  else
    let r := GetSession env self tr
    let sess := r.1.1
    let err := r.1.2
    if err ≠ none then
      ((none, err), r.2.1, r.2.2)
    else
      let svc : Ec2Client := { sess := sess }
      ((some svc, none), { r.2.1 with Ec2 := some svc }, r.2.2)

/-- Embedding of `awsSession.GetSecurityGroupId`.  When
`DescribeSecurityGroups` fails the source returns `nil, err`, where `err` is
the error of `GetEC2`. -/
def GetSecurityGroupId (env : Env) (self : awsSession) (tr : List Call) (groupName : String) :
    (Option String × Option GoError) × awsSession × List Call :=
  let sginput : DescribeSecurityGroupsInput :=
    { Filters := [{ Name := some "group-name", Values := [some groupName] }] }
  let r := GetEC2 env self tr
  let svc := r.1.1
  let err := r.1.2
  if err ≠ none then
    ((none, err), r.2.1, r.2.2)
  else
    let tr1 := r.2.2 ++ [Call.DescribeSecurityGroups svc sginput]
    match env.DescribeSecurityGroups r.2.2 svc sginput with
    | Except.error _ => ((none, err), r.2.1, tr1)
    | Except.ok req =>
      if req.SecurityGroups.length ≠ 1 then
        ((none, some (GoError.errorCustom "Could not match a security group")), r.2.1, tr1)
      else
        ((req.SecurityGroups[0]?.bind SecurityGroup.GroupId, none), r.2.1, tr1)

/-- Embedding of `awsSession.Identity`.  When `GetCallerIdentity` fails the
source returns `nil, err`, where `err` is the error of `GetSession`. -/
def Identity (env : Env) (self : awsSession) (tr : List Call) :
    (Option String × Option GoError) × awsSession × List Call :=
  let r := GetSession env self tr
  let sess := r.1.1
  let err := r.1.2
  if err ≠ none then
    ((none, err), r.2.1, r.2.2)
  else
    let svc : StsClient := { sess := sess }
    let tr1 := r.2.2 ++ [Call.GetCallerIdentity svc]
    match env.GetCallerIdentity r.2.2 svc with
    | Except.error _ => ((none, err), r.2.1, tr1)
    | Except.ok callerid => ((callerid.UserId, none), r.2.1, tr1)

/-- Embedding of `awsSession.AuthorizeSecurityGroupIngressIP`: the returned
error, the receiver after the call, and the trace after the call. -/
def AuthorizeSecurityGroupIngressIP (env : Env) (self : awsSession) (tr : List Call)
    (groupName ip : String) : Option GoError × awsSession × List Call :=
  let r1 := GetSecurityGroupId env self tr groupName
  let sgId := r1.1.1
  let errSgId := r1.1.2
  if errSgId ≠ none then
    (errSgId, r1.2.1, r1.2.2)
  else
    let cidr := (ToCidr ip).1
    let errCidr := (ToCidr ip).2
    if errCidr ≠ none then
      (errCidr, r1.2.1, r1.2.2)
    else
      let r2 := GetEC2 env r1.2.1 r1.2.2
      let svc := r2.1.1
      let errEc2 := r2.1.2
      if errEc2 ≠ none then
        (errEc2, r2.2.1, r2.2.2)
      else
        let fromPort : Int := 0
        let toPort : Int := 65535
        let protocol := "tcp"
        let r3 := Identity env r2.2.1 r2.2.2
        let errUserId := r3.1.2
        if errUserId ≠ none then
          (errUserId, r3.2.1, r3.2.2)
        else
          let input : AuthorizeSecurityGroupIngressInput :=
            { CidrIp := cidr, FromPort := some fromPort, ToPort := some toPort,
              GroupId := sgId, IpProtocol := some protocol }
          let tr4 := r3.2.2 ++ [Call.AuthorizeSecurityGroupIngress svc input]
          match env.AuthorizeSecurityGroupIngress r3.2.2 svc input with
          | some errOutput =>
            if Contains errOutput.Error "already exists" then
              (none, r3.2.1, tr4)
            else
              (some errOutput, r3.2.1, tr4)
          | none => (none, r3.2.1, tr4)

/-- Embedding of `main` after the options have been parsed into `region`
and `sg`: the exit code of the process and the trace of its calls. -/
def main (env : Env) (region sg : String) : Int × List Call :=
  let r1 := GetPublicIP env []
  let ip := r1.1.1
  let err := r1.1.2
  if err ≠ none then
    (-1, r1.2)
  else
    let r2 := ValidateRegion env r1.2 region
    if !r2.1 then
      (-1, r2.2)
    else
      let sess := NewAwsSession region
      let r3 := AuthorizeSecurityGroupIngressIP env sess r2.2 sg ip
      let errAuthorize := r3.1
      if errAuthorize ≠ none then
        (-1, r3.2.2)
      else
        (0, r3.2.2)

/-- One call of `GetSession` or `GetEC2` on the session object, at any trace. -/
inductive Step (env : Env) : awsSession → awsSession → Prop where
  | getSession (self : awsSession) (tr : List Call) :
      Step env self (GetSession env self tr).2.1
  | getEC2 (self : awsSession) (tr : List Call) :
      Step env self (GetEC2 env self tr).2.1

/-- Any number of calls of `GetSession` and `GetEC2`, one after the other. -/
inductive Steps (env : Env) : awsSession → awsSession → Prop where
  | refl (self : awsSession) : Steps env self self
  | tail (a b c : awsSession) : Steps env a b → Step env b c → Steps env a c

/-! ## Sample environments -/

/-- An environment in which every call succeeds: the echo service answers
`body`, and `groups` are the security groups that match. -/
def envOk (body : String) (groups : List SecurityGroup) : Env where
  HttpGet := fun _ _ => Except.ok (Except.ok body)
  LookupHost := fun _ _ => none
  NewSession := fun _ _ => Except.ok { id := 1 }
  DescribeSecurityGroups := fun _ _ _ => Except.ok { SecurityGroups := groups }
  GetCallerIdentity := fun _ _ => Except.ok { UserId := some "AIDAEXAMPLE" }
  AuthorizeSecurityGroupIngress := fun _ _ _ => none

/-- As `envOk`, but `DescribeSecurityGroups` fails. -/
def envDescribeFails (body : String) : Env :=
  { envOk body [] with
    DescribeSecurityGroups := fun _ _ _ =>
      Except.error (GoError.external "RequestError: send request failed") }

/-- As `envOk`, but `GetCallerIdentity` fails. -/
def envIdentityFails (body : String) (groups : List SecurityGroup) : Env :=
  { envOk body groups with
    GetCallerIdentity := fun _ _ =>
      Except.error (GoError.external "InvalidClientTokenId: the token is invalid") }

/-- As `envOk`, but `AuthorizeSecurityGroupIngress` fails with `err`. -/
def envAuthorizeFails (body : String) (groups : List SecurityGroup) (err : GoError) : Env :=
  { envOk body groups with AuthorizeSecurityGroupIngress := fun _ _ _ => some err }

/-! ## The address format in the words of the specification -/

/-- The groups of a string between its dots. -/
def splitDots : List Char → List (List Char)
  | [] => [[]]
  | c :: cs =>
    if c = '.' then [] :: splitDots cs
    else
      match splitDots cs with
      | [] => [[c]]
      | g :: gs => (c :: g) :: gs

/-- The number a group of decimal digits denotes. -/
def groupValue (g : List Char) : Nat :=
  g.foldl (fun n c => 10 * n + (c.toNat - 48)) 0

/-- A valid dotted-decimal IPv4 address in the words of the specification:
four groups of decimal digits separated by dots, each denoting a value in
0..255. -/
def SpecValidIPv4 (s : String) : Bool :=
  let gs := splitDots s.data
  gs.length == 4 && gs.all (fun g => !g.isEmpty && g.all digit && decide (groupValue g ≤ 255))

example : ToCidr "1.2.3.4" = (some "1.2.3.4/32", none) := by decide
example : ToCidr "999.999.999.999" = (some "999.999.999.999/32", none) := by decide
example : (ToCidr "1.2.3.4\n").1 = none := by decide
example : (ToCidr "1.2.3").1 = none := by decide
example : (ToCidr "a1.2.3.4").1 = none := by decide
example : SpecValidIPv4 "1.2.3.4" = true := by decide
example : SpecValidIPv4 "255.0.10.4" = true := by decide
example : SpecValidIPv4 "256.0.10.4" = false := by decide
example : SpecValidIPv4 "1..2.3.4" = false := by decide
example : main (envOk "1.2.3.4\n" [{ GroupId := some "sg-1" }]) "us-east-1" "SelfAdd" =
    (0, [Call.HttpGet "http://checkip.amazonaws.com", Call.LookupHost "ec2.us-east-1.amazonaws.com",
      Call.NewSession "us-east-1",
      Call.DescribeSecurityGroups (some { sess := some { id := 1 } })
        { Filters := [{ Name := some "group-name", Values := [some "SelfAdd"] }] },
      Call.GetCallerIdentity { sess := some { id := 1 } },
      Call.AuthorizeSecurityGroupIngress (some { sess := some { id := 1 } })
        { CidrIp := some "1.2.3.4/32", FromPort := some 0, ToPort := some 65535,
          GroupId := some "sg-1", IpProtocol := some "tcp" }]) := by decide
example : (main (envOk "1.2.3.4\r\n" [{ GroupId := some "sg-1" }]) "us-east-1" "SelfAdd").1 = -1 := by
  decide
example : (main (envDescribeFails "1.2.3.4\n") "us-east-1" "SelfAdd").1 = 0 := by decide
example : (main (envIdentityFails "1.2.3.4\n" [{ GroupId := some "sg-1" }]) "us-east-1" "SelfAdd").1 = 0 := by
  decide
example : Contains "InvalidPermission.Duplicate: the rule already exists" "already exists" = true := by
  decide
example : Contains "already exist" "already exists" = false := by decide
example : Contains "" "" = true := by decide
example : TrimSuffix "1.2.3.4\n\n" "\n" = "1.2.3.4\n" := by decide
example : TrimSuffix "1.2.3.4" "\n" = "1.2.3.4" := by decide

/-! ## Facts about the matcher -/

theorem plusLoop_iff (cls : Char → Bool) (k : List Char → Bool) (s : List Char) :
    plusLoop cls k s = true ↔
      ∃ a rest, (a ≠ [] ∧ ∀ x ∈ a, cls x = true) ∧ s = a ++ rest ∧ k rest = true := by
  induction s with
  | nil =>
    simp only [plusLoop, Bool.false_eq_true, false_iff]
    rintro ⟨a, rest, ⟨ha, -⟩, hs, -⟩
    cases a with
    | nil => exact ha rfl
    | cons y ys => simp at hs
  | cons x xs ih =>
    simp only [plusLoop, Bool.and_eq_true, Bool.or_eq_true, ih]
    constructor
    · rintro ⟨hx, hk | ⟨a, rest, ⟨-, hall⟩, hs, hk⟩⟩
      · exact ⟨[x], xs, ⟨by simp, by simpa using hx⟩, by simp, hk⟩
      · refine ⟨x :: a, rest, ⟨by simp, ?_⟩, by simp [hs], hk⟩
        intro y hy
        rcases List.mem_cons.1 hy with rfl | hy
        · exact hx
        · exact hall y hy
    · rintro ⟨a, rest, ⟨ha, hall⟩, hs, hk⟩
      cases a with
      | nil => exact absurd rfl ha
      | cons y ys =>
        simp only [List.cons_append, List.cons.injEq] at hs
        obtain ⟨rfl, rfl⟩ := hs
        refine ⟨hall x (by simp), ?_⟩
        cases ys with
        | nil => left; simpa using hk
        | cons z zs =>
          right
          exact ⟨z :: zs, rest, ⟨by simp, fun w hw => hall w (by simp [hw])⟩, rfl, hk⟩

theorem matchHere_plus_dot (ts : List Tok) (b : Bool) (s : List Char) :
    matchHere (Tok.plus digit :: Tok.one dot :: ts) b s = true ↔
      ∃ a rest, (a ≠ [] ∧ ∀ x ∈ a, digit x = true) ∧ s = a ++ '.' :: rest ∧
        matchHere ts false rest = true := by
  simp only [matchHere, plusLoop_iff]
  constructor
  · rintro ⟨a, rest, ha, hs, hk⟩
    cases rest with
    | nil => simp at hk
    | cons y ys =>
      simp only [Bool.and_eq_true, dot, beq_iff_eq] at hk
      obtain ⟨rfl, hk⟩ := hk
      exact ⟨a, ys, ha, hs, hk⟩
  · rintro ⟨a, rest, ha, hs, hk⟩
    exact ⟨a, '.' :: rest, ha, hs, by simp [dot, hk]⟩

theorem matchHere_plus_end (b : Bool) (s : List Char) :
    matchHere [Tok.plus digit, Tok.endText] b s = true ↔
      (s ≠ [] ∧ ∀ x ∈ s, digit x = true) := by
  simp only [matchHere, plusLoop_iff]
  constructor
  · rintro ⟨a, rest, ha, hs, hk⟩
    cases rest with
    | nil => simpa [hs] using ha
    | cons y ys => simp at hk
  · intro h
    exact ⟨s, [], h, by simp, by simp⟩

theorem matchHere_beginText_false (ts : List Tok) (s : List Char) :
    matchHere (Tok.beginText :: ts) false s = false := by
  simp [matchHere]

theorem matchFrom_beginText_false (ts : List Tok) (s : List Char) :
    matchFrom (Tok.beginText :: ts) false s = false := by
  induction s with
  | nil => simp [matchFrom, matchHere]
  | cons x xs ih => simp [matchFrom, matchHere, ih]

theorem matchFrom_beginText_true (ts : List Tok) (s : List Char) :
    matchFrom (Tok.beginText :: ts) true s = matchHere ts true s := by
  cases s with
  | nil => simp [matchFrom, matchHere]
  | cons x xs => simp [matchFrom, matchHere, matchFrom_beginText_false]

/-- The expression of `ToCidr` accepts exactly the dotted quads. -/
theorem regexpMatch_ipPattern_iff (s : String) :
    regexpMatch ipPattern s = true ↔ DottedQuad s.data := by
  unfold regexpMatch ipPattern DottedQuad
  rw [matchFrom_beginText_true]
  simp only [matchHere_plus_dot, matchHere_plus_end]
  constructor
  · rintro ⟨a, r1, ha, h1, b, r2, hb, h2, c, r3, hc, h3, hd⟩
    exact ⟨a, b, c, r3, ha, hb, hc, hd, by rw [h1, h2, h3]⟩
  · rintro ⟨a, b, c, d, ha, hb, hc, hd, hs⟩
    exact ⟨a, _, ha, hs, b, _, hb, rfl, c, d, hc, rfl, hd⟩

theorem ToCidr_of_match (s : String) (h : regexpMatch ipPattern s = true) :
    ToCidr s = (some (s ++ "/32"), none) := by
  simp [ToCidr, h]

theorem ToCidr_of_not_match (s : String) (h : regexpMatch ipPattern s = false) :
    ToCidr s =
      (none, some (GoError.errorCustom ("Not a recognized IPv4 address \"" ++ s ++ "\""))) := by
  simp [ToCidr, h]

theorem TrimSuffix_append_newline (b : String) : TrimSuffix (b ++ "\n") "\n" = b := by
  have hd : (b ++ "\n").data = b.data ++ ['\n'] := by simp [String.data_append]
  have hs : ['\n'].isSuffixOf (b.data ++ ['\n']) = true := by
    rw [List.isSuffixOf_iff_suffix]
    exact List.suffix_append _ _
  have hn : ("\n" : String).data = ['\n'] := rfl
  unfold TrimSuffix
  rw [hd, hn, if_pos hs]
  simp

theorem TrimSuffix_of_not_suffix (s suffix : String) (h : ¬ suffix.data <:+ s.data) :
    TrimSuffix s suffix = s := by
  unfold TrimSuffix
  rw [if_neg]
  rw [List.isSuffixOf_iff_suffix]
  exact h

/-! ## `ToCidr` -/

/-- C1: `ToCidr s` succeeds exactly when `s` is four non-empty groups of
ASCII decimal digits separated by single dots with nothing before or after;
on success the result is `s` followed by `/32` with a nil error, otherwise
the result is nil together with the `errorCustom` whose message is
`Not a recognized IPv4 address "<s>"`. -/
theorem ToCidr_succeeds_iff_dottedQuad (s : String) :
    ((ToCidr s).2 = none ↔ DottedQuad s.data) ∧
    (DottedQuad s.data → ToCidr s = (some (s ++ "/32"), none)) ∧
    (¬ DottedQuad s.data → ToCidr s =
      (none, some (GoError.errorCustom ("Not a recognized IPv4 address \"" ++ s ++ "\"")))) := by
  by_cases h : regexpMatch ipPattern s = true
  · have hq : DottedQuad s.data := (regexpMatch_ipPattern_iff s).1 h
    refine ⟨?_, fun _ => ToCidr_of_match s h, fun hn => absurd hq hn⟩
    simp [ToCidr_of_match s h, hq]
  · have hq : ¬ DottedQuad s.data := fun hq => h ((regexpMatch_ipPattern_iff s).2 hq)
    have hf : regexpMatch ipPattern s = false := by simpa using h
    refine ⟨?_, fun hq2 => absurd hq2 hq, fun _ => ToCidr_of_not_match s hf⟩
    simp [ToCidr_of_not_match s hf, hq]

/-- Witness of C1 at `1.2.3.4`. -/
theorem ToCidr_succeeds_iff_dottedQuad_witness :
    ToCidr "1.2.3.4" = (some "1.2.3.4/32", none) :=
  (ToCidr_succeeds_iff_dottedQuad "1.2.3.4").2.1
    ⟨['1'], ['2'], ['3'], ['4'], by decide, by decide, by decide, by decide, rfl⟩

/-- C2, as stated, fails: `999.999.999.999` and `1234.1.1.1` are not valid
IPv4 addresses (a group exceeds 255), and `ToCidr` accepts both. -/
theorem ToCidr_accepts_out_of_range :
    SpecValidIPv4 "999.999.999.999" = false ∧
    ToCidr "999.999.999.999" = (some "999.999.999.999/32", none) ∧
    SpecValidIPv4 "1234.1.1.1" = false ∧
    ToCidr "1234.1.1.1" = (some "1234.1.1.1/32", none) := by
  decide

/-- C2, amended: every string that is not four non-empty groups of decimal
digits separated by dots is rejected by `ToCidr` with an `errorCustom` and
no CIDR string; the value of a group is not looked at. -/
theorem ToCidr_rejects_non_dottedQuad (s : String) (h : ¬ DottedQuad s.data) :
    (ToCidr s).1 = none ∧
    (ToCidr s).2 =
      some (GoError.errorCustom ("Not a recognized IPv4 address \"" ++ s ++ "\"")) := by
  have hf : regexpMatch ipPattern s = false := by
    cases hm : regexpMatch ipPattern s with
    | false => rfl
    | true => exact absurd ((regexpMatch_ipPattern_iff s).1 hm) h
  rw [ToCidr_of_not_match s hf]
  exact ⟨rfl, rfl⟩

/-- Witness of the amended C2 at `1.2.3`. -/
theorem ToCidr_rejects_non_dottedQuad_witness :
    (ToCidr "1.2.3").1 = none ∧
    (ToCidr "1.2.3").2 =
      some (GoError.errorCustom "Not a recognized IPv4 address \"1.2.3\"") :=
  ToCidr_rejects_non_dottedQuad "1.2.3"
    (fun hq => absurd ((regexpMatch_ipPattern_iff "1.2.3").2 hq) (by decide))

/-! ## `GetPublicIP` -/

/-- C7, as stated, fails: for the bodies `1.2.3.4\r\n` and `1.2.3.4\n\n`
only the last line feed is removed, the result is not `1.2.3.4`, and
`ToCidr` rejects it. -/
theorem GetPublicIP_keeps_other_whitespace :
    (GetPublicIP (envOk "1.2.3.4\r\n" []) []).1 = ("1.2.3.4\r", none) ∧
    (GetPublicIP (envOk "1.2.3.4\r\n" []) []).1 ≠ ("1.2.3.4", none) ∧
    (ToCidr (GetPublicIP (envOk "1.2.3.4\r\n" []) []).1.1).1 = none ∧
    (GetPublicIP (envOk "1.2.3.4\n\n" []) []).1 = ("1.2.3.4\n", none) ∧
    (GetPublicIP (envOk "1.2.3.4\n\n" []) []).1 ≠ ("1.2.3.4", none) ∧
    (ToCidr (GetPublicIP (envOk "1.2.3.4\n\n" []) []).1.1).1 = none ∧
    (GetPublicIP (envOk " 1.2.3.4\n" []) []).1 = (" 1.2.3.4", none) := by
  decide

/-- C7, amended: for every body that is read successfully `GetPublicIP`
returns, with a nil error, the body without its final line feed when it ends
in one, and the body itself otherwise; a body made of a dotted-decimal
address and one line feed gives the address, which `ToCidr` accepts. -/
theorem GetPublicIP_trims_one_newline (env : Env) (tr : List Call) (body : String)
    (h : env.HttpGet tr "http://checkip.amazonaws.com" = Except.ok (Except.ok body)) :
    (GetPublicIP env tr).1 = (TrimSuffix body "\n", none) ∧
    (∀ ip : String, body = ip ++ "\n" → (GetPublicIP env tr).1 = (ip, none)) ∧
    (¬ ['\n'] <:+ body.data → (GetPublicIP env tr).1 = (body, none)) ∧
    (∀ ip : String, DottedQuad ip.data → body = ip ++ "\n" →
      ToCidr (GetPublicIP env tr).1.1 = (some (ip ++ "/32"), none)) := by
  have h1 : (GetPublicIP env tr).1 = (TrimSuffix body "\n", none) := by
    simp [GetPublicIP, h]
  refine ⟨h1, ?_, ?_, ?_⟩
  · intro ip hb
    rw [h1, hb, TrimSuffix_append_newline]
  · intro hn
    rw [h1, TrimSuffix_of_not_suffix body "\n" hn]
  · intro ip hq hb
    rw [h1, hb, TrimSuffix_append_newline]
    exact ToCidr_of_match ip ((regexpMatch_ipPattern_iff ip).2 hq)

/-- Witness of the amended C7 at the body `1.2.3.4` with one line feed. -/
theorem GetPublicIP_trims_one_newline_witness :
    (GetPublicIP (envOk "1.2.3.4\n" []) []).1 = ("1.2.3.4", none) ∧
    ToCidr (GetPublicIP (envOk "1.2.3.4\n" []) []).1.1 = (some "1.2.3.4/32", none) :=
  ⟨(GetPublicIP_trims_one_newline (envOk "1.2.3.4\n" []) [] "1.2.3.4\n" rfl).2.1 "1.2.3.4" rfl,
   (GetPublicIP_trims_one_newline (envOk "1.2.3.4\n" []) [] "1.2.3.4\n" rfl).2.2.2 "1.2.3.4"
     ⟨['1'], ['2'], ['3'], ['4'], by decide, by decide, by decide, by decide, rfl⟩ rfl⟩

/-! ## The session object: case analysis -/

theorem GetSession_cached (env : Env) (self : awsSession) (tr : List Call) (s : SdkSession)
    (h : self.Session = some s) : GetSession env self tr = ((some s, none), self, tr) := by
  simp [GetSession, h]

theorem GetSession_cases (env : Env) (self : awsSession) (tr : List Call) :
    (∃ s, self.Session = some s ∧ GetSession env self tr = ((some s, none), self, tr)) ∨
    (∃ e, self.Session = none ∧ GetSession env self tr =
      ((none, some e), self, tr ++ [Call.NewSession self.Region])) ∨
    (∃ s, self.Session = none ∧ GetSession env self tr =
      ((some s, none), { self with Session := some s },
        tr ++ [Call.NewSession self.Region])) := by
  cases hs : self.Session with
  | some s => exact Or.inl ⟨s, rfl, GetSession_cached env self tr s hs⟩
  | none =>
    right
    cases hn : env.NewSession tr self.Region with
    | error e => exact Or.inl ⟨e, rfl, by simp [GetSession, hs, hn]⟩
    | ok sess => exact Or.inr ⟨sess, rfl, by simp [GetSession, hs, hn]⟩

theorem GetEC2_cached (env : Env) (self : awsSession) (tr : List Call) (c : Ec2Client)
    (h : self.Ec2 = some c) : GetEC2 env self tr = ((some c, none), self, tr) := by
  simp [GetEC2, h]

theorem GetEC2_cases (env : Env) (self : awsSession) (tr : List Call) :
    (∃ c, self.Ec2 = some c ∧ GetEC2 env self tr = ((some c, none), self, tr)) ∨
    (∃ e, self.Ec2 = none ∧ (GetSession env self tr).1.2 = some e ∧
      GetEC2 env self tr =
        ((none, some e), (GetSession env self tr).2.1, (GetSession env self tr).2.2)) ∨
    (self.Ec2 = none ∧ (GetSession env self tr).1.2 = none ∧
      GetEC2 env self tr =
        ((some { sess := (GetSession env self tr).1.1 }, none),
          { (GetSession env self tr).2.1 with
            Ec2 := some { sess := (GetSession env self tr).1.1 } },
          (GetSession env self tr).2.2)) := by
  cases hc : self.Ec2 with
  | some c => exact Or.inl ⟨c, rfl, GetEC2_cached env self tr c hc⟩
  | none =>
    right
    cases he : (GetSession env self tr).1.2 with
    | some e => exact Or.inl ⟨e, rfl, rfl, by simp [GetEC2, hc, he]⟩
    | none => exact Or.inr ⟨rfl, rfl, by simp [GetEC2, hc, he]⟩

theorem GetSession_post (env : Env) (self : awsSession) (tr : List Call) :
    (GetSession env self tr).2.1.Ec2 = self.Ec2 ∧
    (GetSession env self tr).2.1.Region = self.Region ∧
    (∀ s, self.Session = some s → (GetSession env self tr).2.1 = self) ∧
    ((GetSession env self tr).1.2 = none →
      (GetSession env self tr).2.1.Session = (GetSession env self tr).1.1 ∧
      (GetSession env self tr).1.1 ≠ none) ∧
    (∀ e, (GetSession env self tr).1.2 = some e →
      (GetSession env self tr).2.1 = self ∧ self.Session = none) := by
  rcases GetSession_cases env self tr with ⟨s, hs, h⟩ | ⟨e, hs, h⟩ | ⟨s, hs, h⟩
  · rw [h]; simp [hs]
  · rw [h]; simp [hs]
  · rw [h]; simp [hs]

theorem GetEC2_post (env : Env) (self : awsSession) (tr : List Call) :
    (GetEC2 env self tr).2.1.Region = self.Region ∧
    (∀ s, self.Session = some s → (GetEC2 env self tr).2.1.Session = some s) ∧
    (∀ c, self.Ec2 = some c → (GetEC2 env self tr).2.1 = self) ∧
    ((GetEC2 env self tr).1.2 = none →
      (GetEC2 env self tr).2.1.Ec2 = (GetEC2 env self tr).1.1 ∧
      (GetEC2 env self tr).1.1 ≠ none) ∧
    (∀ e, (GetEC2 env self tr).1.2 = some e →
      (GetEC2 env self tr).2.1 = self ∧ self.Session = none ∧ self.Ec2 = none) ∧
    ((self.Ec2 ≠ none → self.Session ≠ none) →
      (GetEC2 env self tr).2.1.Ec2 ≠ none → (GetEC2 env self tr).2.1.Session ≠ none) := by
  obtain ⟨p1, p2, p3, p4, p5⟩ := GetSession_post env self tr
  rcases GetEC2_cases env self tr with ⟨c, hc, h⟩ | ⟨e, hc, he, h⟩ | ⟨hc, he, h⟩
  · rw [h]; simp [hc]
  · obtain ⟨q1, q2⟩ := p5 e he
    rw [h, q1]
    simp [hc, q2]
  · obtain ⟨q1, q2⟩ := p4 he
    rw [h]
    refine ⟨by simpa using p2, ?_, by simp [hc], by simp, by simp, ?_⟩
    · intro s hs
      have := p3 s hs
      simp [this, hs]
    · intro _ _
      simpa [q1] using q2

/-! ## Ingress requests in the trace -/

theorem ingressRequests_append (a b : List Call) :
    ingressRequests (a ++ b) = ingressRequests a ++ ingressRequests b := by
  induction a with
  | nil => rfl
  | cons c cs ih => cases c <;> simp [ingressRequests, ih]

theorem GetSession_ingress (env : Env) (self : awsSession) (tr : List Call) :
    ingressRequests (GetSession env self tr).2.2 = ingressRequests tr := by
  rcases GetSession_cases env self tr with ⟨s, -, h⟩ | ⟨e, -, h⟩ | ⟨s, -, h⟩ <;>
    rw [h] <;> simp [ingressRequests_append, ingressRequests]

theorem GetEC2_ingress (env : Env) (self : awsSession) (tr : List Call) :
    ingressRequests (GetEC2 env self tr).2.2 = ingressRequests tr := by
  rcases GetEC2_cases env self tr with ⟨c, -, h⟩ | ⟨e, -, -, h⟩ | ⟨-, -, h⟩ <;>
    rw [h] <;> simp [GetSession_ingress]

theorem GetSecurityGroupId_ingress (env : Env) (self : awsSession) (tr : List Call)
    (groupName : String) :
    ingressRequests (GetSecurityGroupId env self tr groupName).2.2 = ingressRequests tr := by
  unfold GetSecurityGroupId
  simp only
  split
  · exact GetEC2_ingress env self tr
  · split
    · simp [ingressRequests_append, ingressRequests, GetEC2_ingress]
    · split <;> simp [ingressRequests_append, ingressRequests, GetEC2_ingress]

theorem Identity_ingress (env : Env) (self : awsSession) (tr : List Call) :
    ingressRequests (Identity env self tr).2.2 = ingressRequests tr := by
  unfold Identity
  simp only
  split
  · exact GetSession_ingress env self tr
  · split <;> simp [ingressRequests_append, ingressRequests, GetSession_ingress]

/-! ## `GetSecurityGroupId` -/

/-- C3: when the client is available and `DescribeSecurityGroups` answers
with a response, `GetSecurityGroupId` returns the `GroupId` of the group and
a nil error if the response lists exactly one group, and a nil id with the
`errorCustom` "Could not match a security group" if it lists zero groups or
two or more. -/
theorem GetSecurityGroupId_of_response (env : Env) (self : awsSession) (tr : List Call)
    (groupName : String) (out : DescribeSecurityGroupsOutput)
    (hec2 : (GetEC2 env self tr).1.2 = none)
    (hresp : env.DescribeSecurityGroups (GetEC2 env self tr).2.2 (GetEC2 env self tr).1.1
      { Filters := [{ Name := some "group-name", Values := [some groupName] }] } =
        Except.ok out) :
    (∀ g, out.SecurityGroups = [g] →
      (GetSecurityGroupId env self tr groupName).1 = (g.GroupId, none)) ∧
    (out.SecurityGroups.length ≠ 1 →
      (GetSecurityGroupId env self tr groupName).1 =
        (none, some (GoError.errorCustom "Could not match a security group"))) := by
  constructor
  · intro g hg
    simp [GetSecurityGroupId, hec2, hresp, hg]
  · intro hlen
    simp [GetSecurityGroupId, hec2, hresp, hlen]

/-- Witness of C3: one group gives its id, no group and two groups give the
error. -/
theorem GetSecurityGroupId_of_response_witness :
    (GetSecurityGroupId (envOk "" [{ GroupId := some "sg-1" }]) (NewAwsSession "us-east-1") []
      "SelfAdd").1 = (some "sg-1", none) ∧
    (GetSecurityGroupId (envOk "" []) (NewAwsSession "us-east-1") [] "SelfAdd").1 =
      (none, some (GoError.errorCustom "Could not match a security group")) ∧
    (GetSecurityGroupId (envOk "" [{ GroupId := some "sg-1" }, { GroupId := some "sg-2" }])
      (NewAwsSession "us-east-1") [] "SelfAdd").1 =
      (none, some (GoError.errorCustom "Could not match a security group")) :=
  ⟨(GetSecurityGroupId_of_response (envOk "" [{ GroupId := some "sg-1" }])
      (NewAwsSession "us-east-1") [] "SelfAdd" { SecurityGroups := [{ GroupId := some "sg-1" }] }
      (by decide) rfl).1 { GroupId := some "sg-1" } rfl,
   (GetSecurityGroupId_of_response (envOk "" []) (NewAwsSession "us-east-1") [] "SelfAdd"
      { SecurityGroups := [] } (by decide) rfl).2 (by decide),
   (GetSecurityGroupId_of_response
      (envOk "" [{ GroupId := some "sg-1" }, { GroupId := some "sg-2" }])
      (NewAwsSession "us-east-1") [] "SelfAdd"
      { SecurityGroups := [{ GroupId := some "sg-1" }, { GroupId := some "sg-2" }] }
      (by decide) rfl).2 (by decide)⟩

/-- C6, on the code: when `DescribeSecurityGroups` fails, `GetSecurityGroupId`
returns a nil id and a nil error, and `AuthorizeSecurityGroupIngressIP` goes
on, issues the ingress request with a nil `GroupId`, and returns nil. -/
theorem GetSecurityGroupId_describe_failure_returns_nil_error :
    (GetSecurityGroupId (envDescribeFails "1.2.3.4\n") (NewAwsSession "us-east-1") []
      "SelfAdd").1 = (none, none) ∧
    (AuthorizeSecurityGroupIngressIP (envDescribeFails "1.2.3.4\n") (NewAwsSession "us-east-1") []
      "SelfAdd" "1.2.3.4").1 = none ∧
    ingressRequests (AuthorizeSecurityGroupIngressIP (envDescribeFails "1.2.3.4\n")
      (NewAwsSession "us-east-1") [] "SelfAdd" "1.2.3.4").2.2 =
      [{ CidrIp := some "1.2.3.4/32", FromPort := some 0, ToPort := some 65535,
         GroupId := none, IpProtocol := some "tcp" }] := by
  decide

/-! ## `Identity` -/

/-- C9, on the code: when `GetCallerIdentity` fails, `Identity` returns a nil
id and a nil error, and `AuthorizeSecurityGroupIngressIP` goes on, issues the
ingress request, and returns nil. -/
theorem Identity_failure_returns_nil_error :
    (Identity (envIdentityFails "1.2.3.4\n" [{ GroupId := some "sg-1" }])
      (NewAwsSession "us-east-1") []).1 = (none, none) ∧
    (AuthorizeSecurityGroupIngressIP (envIdentityFails "1.2.3.4\n" [{ GroupId := some "sg-1" }])
      (NewAwsSession "us-east-1") [] "SelfAdd" "1.2.3.4").1 = none ∧
    ingressRequests (AuthorizeSecurityGroupIngressIP
      (envIdentityFails "1.2.3.4\n" [{ GroupId := some "sg-1" }])
      (NewAwsSession "us-east-1") [] "SelfAdd" "1.2.3.4").2.2 =
      [{ CidrIp := some "1.2.3.4/32", FromPort := some 0, ToPort := some 65535,
         GroupId := some "sg-1", IpProtocol := some "tcp" }] := by
  decide

/-! ## `AuthorizeSecurityGroupIngressIP` -/

theorem ToCidr_value_of_success (ip : String) (h : (ToCidr ip).2 = none) :
    (ToCidr ip).1 = some (ip ++ "/32") := by
  cases hm : regexpMatch ipPattern ip with
  | true => rw [ToCidr_of_match ip hm]
  | false => rw [ToCidr_of_not_match ip hm] at h; simp at h

/-- C4: after group resolution, CIDR conversion, client creation and the
identity check have all returned a nil error, the function returns nil when
the provider call succeeds or fails with an error whose message contains
"already exists", and returns the provider's error itself in every other
case. -/
theorem AuthorizeSecurityGroupIngressIP_provider_outcome (env : Env) (self : awsSession)
    (tr : List Call) (groupName ip : String)
    (sgId : Option String) (self1 : awsSession) (tr1 : List Call)
    (h1 : GetSecurityGroupId env self tr groupName = ((sgId, none), self1, tr1))
    (cidr : Option String) (h2 : ToCidr ip = (cidr, none))
    (svc : Option Ec2Client) (self2 : awsSession) (tr2 : List Call)
    (h3 : GetEC2 env self1 tr1 = ((svc, none), self2, tr2))
    (uid : Option String) (self3 : awsSession) (tr3 : List Call)
    (h4 : Identity env self2 tr2 = ((uid, none), self3, tr3)) :
    (env.AuthorizeSecurityGroupIngress tr3 svc
        { CidrIp := cidr, FromPort := some 0, ToPort := some 65535, GroupId := sgId,
          IpProtocol := some "tcp" } = none →
      (AuthorizeSecurityGroupIngressIP env self tr groupName ip).1 = none) ∧
    (∀ e, env.AuthorizeSecurityGroupIngress tr3 svc
        { CidrIp := cidr, FromPort := some 0, ToPort := some 65535, GroupId := sgId,
          IpProtocol := some "tcp" } = some e →
      Contains e.Error "already exists" = true →
      (AuthorizeSecurityGroupIngressIP env self tr groupName ip).1 = none) ∧
    (∀ e, env.AuthorizeSecurityGroupIngress tr3 svc
        { CidrIp := cidr, FromPort := some 0, ToPort := some 65535, GroupId := sgId,
          IpProtocol := some "tcp" } = some e →
      Contains e.Error "already exists" = false →
      (AuthorizeSecurityGroupIngressIP env self tr groupName ip).1 = some e) := by
  refine ⟨?_, ?_, ?_⟩
  · intro ho
    simp [AuthorizeSecurityGroupIngressIP, h1, h2, h3, h4, ho]
  · intro e ho hc
    simp [AuthorizeSecurityGroupIngressIP, h1, h2, h3, h4, ho, hc]
  · intro e ho hc
    simp [AuthorizeSecurityGroupIngressIP, h1, h2, h3, h4, ho, hc]

/-- Witness of C4: a provider error that says the rule already exists gives
nil, another provider error is returned as it is. -/
theorem AuthorizeSecurityGroupIngressIP_provider_outcome_witness :
    (AuthorizeSecurityGroupIngressIP
      (envAuthorizeFails "" [{ GroupId := some "sg-1" }]
        (GoError.external "InvalidPermission.Duplicate: the specified rule already exists"))
      (NewAwsSession "us-east-1") [] "SelfAdd" "1.2.3.4").1 = none ∧
    (AuthorizeSecurityGroupIngressIP
      (envAuthorizeFails "" [{ GroupId := some "sg-1" }]
        (GoError.external "UnauthorizedOperation: not authorized"))
      (NewAwsSession "us-east-1") [] "SelfAdd" "1.2.3.4").1 =
        some (GoError.external "UnauthorizedOperation: not authorized") :=
  ⟨(AuthorizeSecurityGroupIngressIP_provider_outcome
      (envAuthorizeFails "" [{ GroupId := some "sg-1" }]
        (GoError.external "InvalidPermission.Duplicate: the specified rule already exists"))
      (NewAwsSession "us-east-1") [] "SelfAdd" "1.2.3.4"
      (some "sg-1") _ _ rfl (some "1.2.3.4/32") (by decide)
      (some { sess := some { id := 1 } }) _ _ rfl
      (some "AIDAEXAMPLE") _ _ rfl).2.1 _ rfl (by decide),
   (AuthorizeSecurityGroupIngressIP_provider_outcome
      (envAuthorizeFails "" [{ GroupId := some "sg-1" }]
        (GoError.external "UnauthorizedOperation: not authorized"))
      (NewAwsSession "us-east-1") [] "SelfAdd" "1.2.3.4"
      (some "sg-1") _ _ rfl (some "1.2.3.4/32") (by decide)
      (some { sess := some { id := 1 } }) _ _ rfl
      (some "AIDAEXAMPLE") _ _ rfl).2.2 _ rfl (by decide)⟩

/-- C5: one call of `AuthorizeSecurityGroupIngressIP` adds at most one ingress
authorization request to the trace, and a request it adds carries `CidrIp`
equal to `ip` followed by `/32`, `FromPort` 0, `ToPort` 65535, `IpProtocol`
"tcp", and as `GroupId` the identifier `GetSecurityGroupId` returned for the
group name. -/
theorem AuthorizeSecurityGroupIngressIP_request (env : Env) (self : awsSession)
    (tr : List Call) (groupName ip : String) :
    ∃ reqs : List AuthorizeSecurityGroupIngressInput,
      ingressRequests (AuthorizeSecurityGroupIngressIP env self tr groupName ip).2.2 =
        ingressRequests tr ++ reqs ∧
      reqs.length ≤ 1 ∧
      ∀ q ∈ reqs, q =
        { CidrIp := some (ip ++ "/32"), FromPort := some 0, ToPort := some 65535,
          GroupId := (GetSecurityGroupId env self tr groupName).1.1,
          IpProtocol := some "tcp" } := by
  have g1 := GetSecurityGroupId_ingress env self tr groupName
  by_cases h1 : (GetSecurityGroupId env self tr groupName).1.2 = none
  swap
  · exact ⟨[], by simp [AuthorizeSecurityGroupIngressIP, h1, g1], by simp, by simp⟩
  by_cases h2 : (ToCidr ip).2 = none
  swap
  · exact ⟨[], by simp [AuthorizeSecurityGroupIngressIP, h1, h2, g1], by simp, by simp⟩
  have g2 := GetEC2_ingress env (GetSecurityGroupId env self tr groupName).2.1
    (GetSecurityGroupId env self tr groupName).2.2
  by_cases h3 : (GetEC2 env (GetSecurityGroupId env self tr groupName).2.1
      (GetSecurityGroupId env self tr groupName).2.2).1.2 = none
  swap
  · exact ⟨[], by simp [AuthorizeSecurityGroupIngressIP, h1, h2, h3, g1, g2], by simp, by simp⟩
  have g3 := Identity_ingress env
    (GetEC2 env (GetSecurityGroupId env self tr groupName).2.1
      (GetSecurityGroupId env self tr groupName).2.2).2.1
    (GetEC2 env (GetSecurityGroupId env self tr groupName).2.1
      (GetSecurityGroupId env self tr groupName).2.2).2.2
  by_cases h4 : (Identity env
      (GetEC2 env (GetSecurityGroupId env self tr groupName).2.1
        (GetSecurityGroupId env self tr groupName).2.2).2.1
      (GetEC2 env (GetSecurityGroupId env self tr groupName).2.1
        (GetSecurityGroupId env self tr groupName).2.2).2.2).1.2 = none
  swap
  · exact ⟨[], by simp [AuthorizeSecurityGroupIngressIP, h1, h2, h3, h4, g1, g2, g3],
      by simp, by simp⟩
  refine ⟨[AuthorizeSecurityGroupIngressInput.mk (some (ip ++ "/32")) (some 0) (some 65535)
    (GetSecurityGroupId env self tr groupName).1.1 (some "tcp")], ?_, by simp, by simp⟩
  have hc := ToCidr_value_of_success ip h2
  unfold AuthorizeSecurityGroupIngressIP
  simp only [h1, h2, h3, h4, hc, ne_eq, not_true_eq_false, if_false]
  split
  · split <;> simp [ingressRequests_append, ingressRequests, g1, g2, g3]
  · simp [ingressRequests_append, ingressRequests, g1, g2, g3]

/-! ## Memoization of the handles -/

theorem Step_keeps (env : Env) (a b : awsSession) (h : Step env a b) :
    b.Region = a.Region ∧
    (∀ s, a.Session = some s → b.Session = some s) ∧
    (∀ c, a.Ec2 = some c → b.Ec2 = some c) ∧
    ((a.Ec2 ≠ none → a.Session ≠ none) → b.Ec2 ≠ none → b.Session ≠ none) := by
  cases h with
  | getSession tr =>
    obtain ⟨p1, p2, p3, p4, p5⟩ := GetSession_post env a tr
    refine ⟨p2, ?_, ?_, ?_⟩
    · intro s hs
      rw [p3 s hs]; exact hs
    · intro c hc
      rw [p1]; exact hc
    · intro hinv hb
      rw [p1] at hb
      cases hs : a.Session with
      | none => exact absurd hs (hinv hb)
      | some s => rw [p3 s hs, hs]; simp
  | getEC2 tr =>
    obtain ⟨q1, q2, q3, q4, q5, q6⟩ := GetEC2_post env a tr
    refine ⟨q1, q2, ?_, q6⟩
    intro c hc
    rw [q3 c hc]; exact hc

theorem Steps_keeps (env : Env) (a b : awsSession) (h : Steps env a b) :
    b.Region = a.Region ∧
    (∀ s, a.Session = some s → b.Session = some s) ∧
    (∀ c, a.Ec2 = some c → b.Ec2 = some c) ∧
    ((a.Ec2 ≠ none → a.Session ≠ none) → b.Ec2 ≠ none → b.Session ≠ none) := by
  induction h with
  | refl => exact ⟨rfl, fun _ h => h, fun _ h => h, fun h => h⟩
  | tail b c _ hbc ih =>
    obtain ⟨i1, i2, i3, i4⟩ := ih
    obtain ⟨k1, k2, k3, k4⟩ := Step_keeps env b c hbc
    exact ⟨k1.trans i1, fun s hs => k2 s (i2 s hs), fun x hx => k3 x (i3 x hx),
      fun hinv => k4 (i4 hinv)⟩

theorem Step_client_on_session (env : Env) (a b : awsSession) (h : Step env a b)
    (hinv : ∀ c, a.Ec2 = some c → a.Session ≠ none ∧ c.sess = a.Session) :
    ∀ c, b.Ec2 = some c → b.Session ≠ none ∧ c.sess = b.Session := by
  cases h with
  | getSession tr =>
    obtain ⟨p1, -, p3, -, -⟩ := GetSession_post env a tr
    intro c hc
    rw [p1] at hc
    obtain ⟨hne, hcs⟩ := hinv c hc
    cases hs : a.Session with
    | none => exact absurd hs hne
    | some s =>
      rw [p3 s hs]
      exact ⟨hne, hcs⟩
  | getEC2 tr =>
    obtain ⟨-, -, -, p4, -⟩ := GetSession_post env a tr
    rcases GetEC2_cases env a tr with ⟨c0, hc0, h⟩ | ⟨e, hc0, he, h⟩ | ⟨hc0, he, h⟩
    · rw [h]; exact hinv
    · intro c hc
      rw [h] at hc
      have hE : (GetSession env a tr).2.1.Ec2 = a.Ec2 := (GetSession_post env a tr).1
      simp only [hE, hc0] at hc
      exact absurd hc (by simp)
    · obtain ⟨q1, q2⟩ := p4 he
      intro c hc
      rw [h] at hc ⊢
      simp only [Option.some.injEq] at hc
      subst hc
      simp only [q1]
      exact ⟨q2, trivial⟩

theorem Steps_client_on_session (env : Env) (a b : awsSession) (h : Steps env a b)
    (hinv : ∀ c, a.Ec2 = some c → a.Session ≠ none ∧ c.sess = a.Session) :
    ∀ c, b.Ec2 = some c → b.Session ≠ none ∧ c.sess = b.Session := by
  induction h with
  | refl => exact hinv
  | tail b c _ hbc ih => exact Step_client_on_session env b c hbc ih

/-- C10: for every state of the session object reachable from
`NewAwsSession region` by calls of `GetSession` and `GetEC2`:
(i) once `GetSession` has succeeded, the session it returned is the one
stored in the `Session` field, it stays stored in every later state, and
every later `GetSession` returns that same session and leaves the object and
the trace as they are, so no session is created; (ii) once `GetEC2` has
succeeded, the client it returned is the one stored in the `Ec2` field, it
stays stored in every later state, and every later `GetEC2` returns that same
client and leaves the object and the trace as they are; (iii) a cached `Ec2`
comes with a cached `Session`, and the cached client is the one built on the
cached session; (iv) a failed session creation, through `GetSession` or
through `GetEC2`, leaves both handles unset; (v) `Region` is the region the
object was made with. -/
theorem session_handles_memoized (env : Env) (region : String) (self : awsSession)
    (hreach : Steps env (NewAwsSession region) self) :
    (∀ tr, (GetSession env self tr).1.2 = none →
      (GetSession env self tr).1.1 ≠ none ∧
      (GetSession env self tr).2.1.Session = (GetSession env self tr).1.1 ∧
      ∀ later, Steps env (GetSession env self tr).2.1 later →
        later.Session = (GetSession env self tr).1.1 ∧
        ∀ tr2,
          GetSession env later tr2 = (((GetSession env self tr).1.1, none), later, tr2)) ∧
    (∀ tr, (GetEC2 env self tr).1.2 = none →
      (GetEC2 env self tr).1.1 ≠ none ∧
      (GetEC2 env self tr).2.1.Ec2 = (GetEC2 env self tr).1.1 ∧
      ∀ later, Steps env (GetEC2 env self tr).2.1 later →
        later.Ec2 = (GetEC2 env self tr).1.1 ∧
        ∀ tr2, GetEC2 env later tr2 = (((GetEC2 env self tr).1.1, none), later, tr2)) ∧
    (self.Ec2 ≠ none → self.Session ≠ none) ∧
    (∀ c, self.Ec2 = some c → self.Session ≠ none ∧ c.sess = self.Session) ∧
    (∀ tr e, (GetSession env self tr).1.2 = some e →
      (GetSession env self tr).2.1.Session = none ∧ (GetSession env self tr).2.1.Ec2 = none) ∧
    (∀ tr e, (GetEC2 env self tr).1.2 = some e →
      (GetEC2 env self tr).2.1.Session = none ∧ (GetEC2 env self tr).2.1.Ec2 = none) ∧
    self.Region = region := by
  obtain ⟨r1, -, -, r4⟩ := Steps_keeps env _ _ hreach
  have hinv : self.Ec2 ≠ none → self.Session ≠ none := r4 (by simp [NewAwsSession])
  have hcl : ∀ c, self.Ec2 = some c → self.Session ≠ none ∧ c.sess = self.Session :=
    Steps_client_on_session env _ _ hreach (by simp [NewAwsSession])
  refine ⟨?_, ?_, hinv, hcl, ?_, ?_, by simpa [NewAwsSession] using r1⟩
  · intro tr hok
    obtain ⟨-, -, -, p4, -⟩ := GetSession_post env self tr
    obtain ⟨hs, hne⟩ := p4 hok
    refine ⟨hne, hs, ?_⟩
    intro later hlater
    obtain ⟨s, hsome⟩ : ∃ s, (GetSession env self tr).1.1 = some s := by
      cases hx : (GetSession env self tr).1.1 with
      | none => exact absurd hx hne
      | some s => exact ⟨s, rfl⟩
    rw [hsome] at hs ⊢
    have hl := (Steps_keeps env _ _ hlater).2.1 s hs
    exact ⟨hl, fun tr2 => GetSession_cached env later tr2 s hl⟩
  · intro tr hok
    obtain ⟨-, -, -, q4, -, -⟩ := GetEC2_post env self tr
    obtain ⟨hc, hne⟩ := q4 hok
    refine ⟨hne, hc, ?_⟩
    intro later hlater
    obtain ⟨c, hsome⟩ : ∃ c, (GetEC2 env self tr).1.1 = some c := by
      cases hx : (GetEC2 env self tr).1.1 with
      | none => exact absurd hx hne
      | some c => exact ⟨c, rfl⟩
    rw [hsome] at hc ⊢
    have hl := (Steps_keeps env _ _ hlater).2.2.1 c hc
    exact ⟨hl, fun tr2 => GetEC2_cached env later tr2 c hl⟩
  · intro tr e he
    obtain ⟨-, -, -, -, p5⟩ := GetSession_post env self tr
    obtain ⟨hst, hs⟩ := p5 e he
    rw [hst]
    refine ⟨hs, ?_⟩
    cases hc : self.Ec2 with
    | none => rfl
    | some c => exact absurd hs (hinv (by simp [hc]))
  · intro tr e he
    obtain ⟨-, -, -, -, q5, -⟩ := GetEC2_post env self tr
    obtain ⟨hst, hs, hc⟩ := q5 e he
    rw [hst]
    exact ⟨hs, hc⟩

/-- Witness of C10 in an environment where session creation succeeds: the
first `GetEC2` on the fresh object stores the client it returns, a second
`GetEC2` returns that client and changes nothing, the state it reaches has
both handles cached with the client built on the cached session, a
`GetSession` there returns the cached session, and the region is kept. -/
theorem session_handles_memoized_witness :
    Steps (envOk "" []) (NewAwsSession "us-east-1")
      (GetEC2 (envOk "" []) (NewAwsSession "us-east-1") []).2.1 ∧
    (GetEC2 (envOk "" []) (NewAwsSession "us-east-1") []).2.1.Ec2 =
      some { sess := some { id := 1 } } ∧
    (∀ tr2, GetEC2 (envOk "" []) (GetEC2 (envOk "" []) (NewAwsSession "us-east-1") []).2.1 tr2 =
      ((some { sess := some { id := 1 } }, none),
        (GetEC2 (envOk "" []) (NewAwsSession "us-east-1") []).2.1, tr2)) ∧
    ((GetEC2 (envOk "" []) (NewAwsSession "us-east-1") []).2.1.Session ≠ none ∧
      (some { id := 1 } : Option SdkSession) =
        (GetEC2 (envOk "" []) (NewAwsSession "us-east-1") []).2.1.Session) ∧
    (∀ tr2, GetSession (envOk "" []) (GetEC2 (envOk "" []) (NewAwsSession "us-east-1") []).2.1 tr2 =
      ((some { id := 1 }, none), (GetEC2 (envOk "" []) (NewAwsSession "us-east-1") []).2.1, tr2)) ∧
    (GetEC2 (envOk "" []) (NewAwsSession "us-east-1") []).2.1.Region = "us-east-1" :=
  ⟨Steps.tail _ _ _ (Steps.refl _) (Step.getEC2 _ []),
   ((session_handles_memoized (envOk "" []) "us-east-1" (NewAwsSession "us-east-1")
      (Steps.refl _)).2.1 [] rfl).2.1,
   fun tr2 =>
    (((session_handles_memoized (envOk "" []) "us-east-1" (NewAwsSession "us-east-1")
      (Steps.refl _)).2.1 [] rfl).2.2 _ (Steps.refl _)).2 tr2,
   (session_handles_memoized (envOk "" []) "us-east-1"
      (GetEC2 (envOk "" []) (NewAwsSession "us-east-1") []).2.1
      (Steps.tail _ _ _ (Steps.refl _) (Step.getEC2 _ []))).2.2.2.1
      { sess := some { id := 1 } } rfl,
   fun tr2 =>
    (((session_handles_memoized (envOk "" []) "us-east-1"
      (GetEC2 (envOk "" []) (NewAwsSession "us-east-1") []).2.1
      (Steps.tail _ _ _ (Steps.refl _) (Step.getEC2 _ []))).1 [] rfl).2.2 _ (Steps.refl _)).2 tr2,
   (session_handles_memoized (envOk "" []) "us-east-1"
      (GetEC2 (envOk "" []) (NewAwsSession "us-east-1") []).2.1
      (Steps.tail _ _ _ (Steps.refl _) (Step.getEC2 _ []))).2.2.2.2.2.2⟩

/-! ## `main` -/

theorem cloudCalls_append (a b : List Call) :
    cloudCalls (a ++ b) = cloudCalls a ++ cloudCalls b := by
  induction a with
  | nil => rfl
  | cons c cs ih => cases c <;> simp [cloudCalls, ih]

theorem GetPublicIP_cloudCalls (env : Env) (tr : List Call) :
    cloudCalls (GetPublicIP env tr).2 = cloudCalls tr := by
  unfold GetPublicIP
  simp only
  split
  · simp [cloudCalls_append, cloudCalls]
  · split <;> simp [cloudCalls_append, cloudCalls]

theorem ValidateRegion_cloudCalls (env : Env) (tr : List Call) (region : String) :
    cloudCalls (ValidateRegion env tr region).2 = cloudCalls tr := by
  unfold ValidateRegion
  simp only
  split <;> simp [cloudCalls_append, cloudCalls]

/-- What `main` does before the session object exists: a failed fetch of the
public IP and an invalid region both end the process with code -1 before any
call to the cloud provider; past these checks the exit code is 0 exactly
when `AuthorizeSecurityGroupIngressIP` returns nil, and -1 otherwise. -/
theorem main_exit_code (env : Env) (region sg : String) :
    ((GetPublicIP env []).1.2 ≠ none →
      (main env region sg).1 = -1 ∧ cloudCalls (main env region sg).2 = []) ∧
    ((GetPublicIP env []).1.2 = none →
      (ValidateRegion env (GetPublicIP env []).2 region).1 = false →
      (main env region sg).1 = -1 ∧ cloudCalls (main env region sg).2 = []) ∧
    ((GetPublicIP env []).1.2 = none →
      (ValidateRegion env (GetPublicIP env []).2 region).1 = true →
      ((AuthorizeSecurityGroupIngressIP env (NewAwsSession region)
          (ValidateRegion env (GetPublicIP env []).2 region).2 sg
          (GetPublicIP env []).1.1).1 = none → (main env region sg).1 = 0) ∧
      ((AuthorizeSecurityGroupIngressIP env (NewAwsSession region)
          (ValidateRegion env (GetPublicIP env []).2 region).2 sg
          (GetPublicIP env []).1.1).1 ≠ none → (main env region sg).1 = -1)) := by
  refine ⟨?_, ?_, ?_⟩
  · intro h
    have hc := GetPublicIP_cloudCalls env []
    simp [main, h, hc, cloudCalls]
  · intro h hv
    have hc := ValidateRegion_cloudCalls env (GetPublicIP env []).2 region
    rw [GetPublicIP_cloudCalls] at hc
    simp [main, h, hv, hc, cloudCalls]
  · intro h hv
    constructor
    · intro ha
      simp [main, h, hv, ha]
    · intro ha
      simp [main, h, hv, ha]

/-- C8, on the code: the process exits with code 0 although the identity
query failed, and also although the group lookup failed. -/
theorem main_exits_zero_after_failed_step :
    (main (envIdentityFails "1.2.3.4\n" [{ GroupId := some "sg-1" }]) "us-east-1" "SelfAdd").1 = 0 ∧
    (main (envDescribeFails "1.2.3.4\n") "us-east-1" "SelfAdd").1 = 0 := by
  decide

end AwsAuthorize
